import Mathlib

/-!
Verification of the indicator, charting and analysis logic of
`AIP_TECHNICAL_ANALYSIS.py` (AI-Powered Technical Analysis Stock dashboard).

The price data is a pandas DataFrame; we embed the close series as `List ℚ`
(real arithmetic modelled exactly over the rationals) and an overlay series as
`List (Option ℚ)` where `none` stands for pandas `NaN` (undefined warm-up
positions).  Rolling standard deviation involves a square root, which we keep
abstract as a parameter `sq : ℚ → ℚ`.
-/

namespace StockDashboard

/-- Pandas `rolling(w).mean()` over the Close column: with the pandas default
`min_periods = w`, position `i` holds the mean of the last `w` closes among
the first `i+1` when `w ≤ i + 1`, and `NaN` otherwise.  Same length as the
input. -/
def rollingMean (w : ℕ) (xs : List ℚ) : List (Option ℚ) :=
  (List.range xs.length).map fun i =>
    if w ≤ i + 1 then some ((((xs.take (i + 1)).drop (i + 1 - w)).sum) / (w : ℚ))
    else none

/-- Pandas `rolling(w).std()` over the Close column: sample standard deviation
(pandas default `ddof = 1`) of the trailing `w` closes, `NaN` during the
warm-up prefix.  The square root is kept abstract as `sq`. -/
def rollingStd (sq : ℚ → ℚ) (w : ℕ) (xs : List ℚ) : List (Option ℚ) :=
  (List.range xs.length).map fun i =>
    if w ≤ i + 1 then
      let win := (xs.take (i + 1)).drop (i + 1 - w)
      let m := win.sum / (w : ℚ)
      some (sq (((win.map fun x => (x - m) ^ 2).sum) / ((w : ℚ) - 1)))
    else none

/-- Elementwise `a + k*b` on two aligned pandas series; `NaN` propagates. -/
def seriesAffine (k : ℚ) (ma sa : List (Option ℚ)) : List (Option ℚ) :=
  List.zipWith
    (fun m s =>
      match m, s with
      | some mv, some sv => some (mv + k * sv)
      | _, _ => none)
    ma sa

/-- Upper band `sma + 2*std`, `sma = rolling(20).mean()`, `std = rolling(20).std()`. -/
def bollingerUpper (sq : ℚ → ℚ) (xs : List ℚ) : List (Option ℚ) :=
  seriesAffine 2 (rollingMean 20 xs) (rollingStd sq 20 xs)

/-- Lower band `sma - 2*std`, `sma = rolling(20).mean()`, `std = rolling(20).std()`. -/
def bollingerLower (sq : ℚ → ℚ) (xs : List ℚ) : List (Option ℚ) :=
  seriesAffine (-2) (rollingMean 20 xs) (rollingStd sq 20 xs)

/-- The recursion pandas uses for `ewm(span).mean()` with its default
`adjust=True`: running numerator `num_t = x_t + (1-α)·num_(t-1)` and
denominator `den_t = 1 + (1-α)·den_(t-1)`, output `num_t / den_t`. -/
def ewmAux (a num den : ℚ) : List ℚ → List ℚ
  | [] => []
  | x :: xs =>
    let num1 := x + (1 - a) * num
    let den1 := 1 + (1 - a) * den
    num1 / den1 :: ewmAux a num1 den1 xs

/-- Pandas `ewm(span=span).mean()` over the Close column with the pandas
defaults (`adjust=True`, `min_periods=0`): smoothing factor `α = 2/(span+1)`,
defined at every position from the first observation on. -/
def ewmMean (span : ℕ) (xs : List ℚ) : List ℚ :=
  ewmAux (2 / ((span : ℚ) + 1)) 0 0 xs

/-- The EMA overlay as plotted: every position carries a value (no `NaN`). -/
def emaOverlay (span : ℕ) (xs : List ℚ) : List (Option ℚ) :=
  (ewmMean span xs).map some

/-- The multiselect catalog offered in the sidebar
(`st.sidebar.multiselect("Add Indicators:", [...])`). -/
def indicatorOptions : List String :=
  ["50-Day SMA", "200-Day SMA", "20-Day EMA", "Bollinger Bands", "RSI", "MACD"]

/-- The two analysis modes offered by the radio control. -/
def analysisModes : List String :=
  ["Basic Technical Analysis", "Advanced Pattern Recognition"]

/-- Does `needle` start `hay`?  (Python string comparison on characters.) -/
def charPrefix : List Char → List Char → Bool
  | [], _ => true
  | _ :: _, [] => false
  | n :: ns, h :: hs => n == h && charPrefix ns hs

/-- Python `needle in hay` for strings: `needle` occurs contiguously in `hay`. -/
def containsSub (needle : List Char) : List Char → Bool
  | [] => charPrefix needle []
  | h :: hs => charPrefix needle (h :: hs) || containsSub needle hs

/-- The model argument of the chat call: `llava` when the substring `vision`
occurs in the analysis mode label, `llama3` otherwise. -/
def chatModel (analysisType : String) : String :=
  if containsSub "vision".toList analysisType.toList then "llava" else "llama3"

/-- One plotly trace: the candlestick price trace or an overlay line trace. -/
inductive Trace
  | candlestick (opens highs lows closes : List ℚ)
  | line (name : String) (ys : List (Option ℚ))
  deriving DecidableEq

/-- The figure built by the script: the candlestick trace first, then the
`if "..." in indicators` chain appending one line trace per handled indicator
(Bollinger appends two), in the fixed order of the chain. -/
def buildFigure (sq : ℚ → ℚ) (indicators : List String)
    (opens highs lows closes : List ℚ) : List Trace :=
  [Trace.candlestick opens highs lows closes] ++
  (if "50-Day SMA" ∈ indicators then
    [Trace.line "50-Day SMA" (rollingMean 50 closes)] else []) ++
  (if "200-Day SMA" ∈ indicators then
    [Trace.line "200-Day SMA" (rollingMean 200 closes)] else []) ++
  (if "20-Day EMA" ∈ indicators then
    [Trace.line "20-Day EMA" (emaOverlay 20 closes)] else []) ++
  (if "Bollinger Bands" ∈ indicators then
    [Trace.line "Upper Band" (bollingerUpper sq closes),
     Trace.line "Lower Band" (bollingerLower sq closes)] else [])

/-- The indicator names that have a handler in the chain. -/
def handledIndicators : List String :=
  ["50-Day SMA", "200-Day SMA", "20-Day EMA", "Bollinger Bands"]

/-- The retry loop of the Generate AI Report handler, run over the attempt
indices `range 3`: each call consults `oracle`; success breaks out, a failure
on attempt index 2 re-raises, any other failure sleeps 2 seconds and moves to
the next attempt.  Returns the outcome (`none` would mean the loop ran out of
attempts, impossible here), the number of calls made, and the list of sleep
durations performed. -/
def retryStep (oracle : ℕ → Except String String) :
    List ℕ → Option (Except String String) × ℕ × List ℕ
  | [] => (none, 0, [])
  | a :: rest =>
    match oracle a with
    | .ok r => (some (.ok r), 1, [])
    | .error e =>
      if a == 2 then (some (.error e), 1, [])
      else
        let (res, calls, sleeps) := retryStep oracle rest
        (res, calls + 1, 2 :: sleeps)

/-- The bounded retry loop around the chat call, over attempts `range 3`. -/
def generateAIReport (oracle : ℕ → Except String String) :
    Option (Except String String) × ℕ × List ℕ :=
  retryStep oracle (List.range 3)

/-- How the body of the Generate AI Report action can end once the temporary
image file exists: chat success, model failure after exhausted retries, or any
other exception raised later in the body. -/
inductive AnalysisOutcome
  | success (content : String)
  | modelFailure (err : String)
  | otherFailure (err : String)

/-- Filesystem state visible to the action: whether the temporary chart image
exists. -/
structure FsState where
  tmpExists : Bool
  deriving DecidableEq

/-- Opening the named temporary file (with delete=False) and writing the
rasterized chart into it: the image file now exists on disk. -/
def writeTmp (_ : FsState) : FsState := { tmpExists := true }

/-- Unlinking the temporary file: the image file no longer exists. -/
def unlinkTmp (_ : FsState) : FsState := { tmpExists := false }

/-- The `try/except/finally` of the Generate AI Report action: the temp image
is written, the body ends in one of the three outcomes (exceptions are caught
by the `except` arm and turned into an error message), and the `finally` arm
unlinks the temp file because `tmp` is in scope once the file was created. -/
def generateReportAction (o : AnalysisOutcome) (s0 : FsState) : FsState × String :=
  let s1 := writeTmp s0
  let step : FsState × String :=
    match o with
    | .success c => (s1, c)
    | .modelFailure e => (s1, "AI analysis failed: " ++ e)
    | .otherFailure e => (s1, "AI analysis failed: " ++ e)
  (unlinkTmp step.1, step.2)

/-- Every position of an overlay is undefined (`NaN`). -/
def allUndefined (l : List (Option ℚ)) : Prop := ∀ o ∈ l, o = none

/-- Every position of an overlay carries a value. -/
def allDefined (l : List (Option ℚ)) : Prop := ∀ o ∈ l, o ≠ none

/-- Numerator of the adjusted exponential weighted mean over a prefix
`[x_0, ..., x_i]`: the close `j` steps back carries weight `r^j`, i.e.
`x_0·r^i + x_1·r^(i-1) + ... + x_i·r^0`. -/
def expWeightedNum (r : ℚ) : List ℚ → ℚ
  | [] => 0
  | x :: xs => x * r ^ xs.length + expWeightedNum r xs

/-- Denominator of the adjusted exponential weighted mean over `n` points:
`r^0 + r^1 + ... + r^(n-1)`. -/
def expWeightedDen (r : ℚ) : ℕ → ℚ
  | 0 => 0
  | n + 1 => r ^ n + expWeightedDen r n

/-- The adjusted (weight-normalised) exponential weighted mean with
`α = 2/(span+1)`: position `i` is the `(1-α)`-geometrically weighted average
of the closes `[0..i]`, weight `(1-α)^j` on the close `j` steps back. -/
def emaAdjustedSpec (span : ℕ) (xs : List ℚ) : List ℚ :=
  let r := 1 - 2 / ((span : ℚ) + 1)
  (List.range xs.length).map fun i =>
    expWeightedNum r (xs.take (i + 1)) / expWeightedDen r (i + 1)

/-- Recursive exponential smoothing after the seed: `y = α·x + (1-α)·prev`. -/
def emaRecAux (a prev : ℚ) : List ℚ → List ℚ
  | [] => []
  | x :: xs =>
    let y := a * x + (1 - a) * prev
    y :: emaRecAux a y xs

/-- The EMA as the spec describes it: standard recursive exponential smoothing
with `α = 2/(span+1)`, seeded by the first close (`y_0 = x_0`,
`y_i = α·x_i + (1-α)·y_(i-1)`). -/
def emaRecursiveSpec (span : ℕ) (xs : List ℚ) : List ℚ :=
  match xs with
  | [] => []
  | x :: t => x :: emaRecAux (2 / ((span : ℚ) + 1)) x t

/-- Modelled from the spec: no VWAP computation exists in
`AIP_TECHNICAL_ANALYSIS.py` (the multiselect catalog and the indicator chain
never mention it); this follows the spec words, cumulative sum of
`close × volume` divided by cumulative sum of `volume` from the start of the
series to each point, undefined when the cumulative volume is zero. -/
def vwap (closes volumes : List ℚ) : List (Option ℚ) :=
  (List.range closes.length).map fun i =>
    let pv := (((closes.take (i + 1)).zip (volumes.take (i + 1))).map
      fun p => p.1 * p.2).sum
    let tv := (volumes.take (i + 1)).sum
    if tv = 0 then none else some (pv / tv)

/-- A model-call behaviour that fails on the first two attempts and succeeds
on the third. -/
def oracleFailTwice : ℕ → Except String String :=
  fun i => if i < 2 then .error "connection refused" else .ok "report text"

instance decAllUndefined (l : List (Option ℚ)) : Decidable (allUndefined l) :=
  List.decidableBAll _ l

instance decAllDefined (l : List (Option ℚ)) : Decidable (allDefined l) :=
  List.decidableBAll _ l

theorem ewmAux_length (a num den : ℚ) (xs : List ℚ) :
    (ewmAux a num den xs).length = xs.length := by
  induction xs generalizing num den with
  | nil => rfl
  | cons x t ih => simp [ewmAux, ih]

theorem ewmAux_getElem (a : ℚ) (xs : List ℚ) (i : ℕ) (num den : ℚ)
    (hi : i < xs.length) :
    (ewmAux a num den xs)[i]? =
      some ((num * (1 - a) ^ (i + 1) +
          expWeightedNum (1 - a) (xs.take (i + 1))) /
        (den * (1 - a) ^ (i + 1) + expWeightedDen (1 - a) (i + 1))) := by
  induction xs generalizing num den i with
  | nil => simp at hi
  | cons x t ih =>
    cases i with
    | zero =>
      simp [ewmAux, expWeightedNum, expWeightedDen]
      congr 1 <;> ring
    | succ i =>
      have hit : i < t.length := by simpa using hi
      have htake : (t.take (i + 1)).length = i + 1 := by
        simp [List.length_take]; omega
      rw [show ewmAux a num den (x :: t) =
        (x + (1 - a) * num) / (1 + (1 - a) * den) ::
          ewmAux a (x + (1 - a) * num) (1 + (1 - a) * den) t from rfl]
      rw [List.getElem?_cons_succ,
        ih i (x + (1 - a) * num) (1 + (1 - a) * den) hit]
      rw [List.take_succ_cons]
      rw [show expWeightedNum (1 - a) (x :: t.take (i + 1)) =
        x * (1 - a) ^ (t.take (i + 1)).length +
          expWeightedNum (1 - a) (t.take (i + 1)) from rfl]
      rw [htake]
      rw [show expWeightedDen (1 - a) (i + 1 + 1) =
        (1 - a) ^ (i + 1) + expWeightedDen (1 - a) (i + 1) from rfl]
      congr 1
      congr 1 <;> ring

theorem rollingMean_getElem (w : ℕ) (xs : List ℚ) (i : ℕ) (hi : i < xs.length) :
    (rollingMean w xs)[i]? =
      some (if w ≤ i + 1 then
        some ((((xs.take (i + 1)).drop (i + 1 - w)).sum) / (w : ℚ)) else none) := by
  rw [rollingMean, List.getElem?_map, List.getElem?_range hi, Option.map_some']

/-- C1: for a series with at least `window` points, the SMA(window) overlay at
index `i ≥ window-1` is the arithmetic mean of the closes at indices
`[i-window+1 .. i]`, and at every index `i < window-1` it is undefined; this
holds for every positive window, in particular the offered 50 and 200. -/
theorem sma_trailing_mean (xs : List ℚ) (w i : ℕ) (hw : 1 ≤ w)
    (hlen : w ≤ xs.length) (hi : i < xs.length) :
    (w - 1 ≤ i →
      (rollingMean w xs)[i]? =
        some (some ((((xs.drop (i + 1 - w)).take w).sum) / (w : ℚ)))) ∧
    (i < w - 1 → (rollingMean w xs)[i]? = some none) := by
  constructor
  · intro hge
    have hw1 : w ≤ i + 1 := by omega
    rw [rollingMean_getElem w xs i hi, if_pos hw1, List.drop_take,
      Nat.sub_sub_self hw1]
  · intro hlt
    have hw1 : ¬ w ≤ i + 1 := by omega
    rw [rollingMean_getElem w xs i hi, if_neg hw1]

/-- Witness for C1 at `window = 2`, closes `[1, 3, 5]`, index `2`. -/
theorem sma_trailing_mean_witness :
    (1 ≤ 2 ∧ 2 ≤ [(1 : ℚ), 3, 5].length ∧ 2 < [(1 : ℚ), 3, 5].length ∧
      2 - 1 ≤ 2) ∧
    (rollingMean 2 [(1 : ℚ), 3, 5])[2]? =
      some (some (((([(1 : ℚ), 3, 5].drop (2 + 1 - 2)).take 2).sum) / (2 : ℚ))) :=
  ⟨by decide,
    (sma_trailing_mean [(1 : ℚ), 3, 5] 2 2 (by decide) (by decide)
      (by decide)).1 (by decide)⟩

/-- C2: the retry loop makes at most 3 calls with a fixed 2-second sleep
between consecutive failed attempts: two failures followed by a success
return the third response after exactly 3 calls and exactly 2 sleeps, and
three failures propagate the third error after exactly 3 calls. -/
theorem retry_loop_three_attempts (oracle : ℕ → Except String String) :
    (∀ e0 e1 c, oracle 0 = .error e0 → oracle 1 = .error e1 →
      oracle 2 = .ok c →
      generateAIReport oracle = (some (.ok c), 3, [2, 2])) ∧
    (∀ e0 e1 e2, oracle 0 = .error e0 → oracle 1 = .error e1 →
      oracle 2 = .error e2 →
      generateAIReport oracle = (some (.error e2), 3, [2, 2])) := by
  have hrange : List.range 3 = [0, 1, 2] := rfl
  constructor
  · intro e0 e1 c h0 h1 h2
    simp [generateAIReport, hrange, retryStep, h0, h1, h2]
  · intro e0 e1 e2 h0 h1 h2
    simp [generateAIReport, hrange, retryStep, h0, h1, h2]

/-- Witness for C2: an endpoint failing twice then succeeding yields the
third content after 3 calls and 2 sleeps. -/
theorem retry_loop_three_attempts_witness :
    (oracleFailTwice 0 = .error "connection refused" ∧
      oracleFailTwice 1 = .error "connection refused" ∧
      oracleFailTwice 2 = .ok "report text") ∧
    generateAIReport oracleFailTwice = (some (.ok "report text"), 3, [2, 2]) :=
  ⟨⟨rfl, rfl, rfl⟩,
    (retry_loop_three_attempts oracleFailTwice).1
      "connection refused" "connection refused" "report text" rfl rfl rfl⟩

/-- C6: on every exit path of the Generate AI Report action — success, model
failure after exhausted retries, or another exception after the temp image was
created — the `finally` arm deletes the temporary chart image, so the file
does not exist once the action completes. -/
theorem tmp_file_deleted_on_exit (o : AnalysisOutcome) (s0 : FsState) :
    (generateReportAction o s0).1.tmpExists = false := by
  cases o <;> rfl

/-- C8: neither offered analysis mode contains the substring `vision`, so the
model passed to the chat call is `llama3` for every mode selection. -/
theorem model_selection_llama3 :
    (∀ t ∈ analysisModes, containsSub "vision".toList t.toList = false) ∧
    (∀ t ∈ analysisModes, chatModel t = "llama3") := by
  decide

/-- Witness for C8 at the first offered mode. -/
theorem model_selection_llama3_witness :
    ("Basic Technical Analysis" ∈ analysisModes) ∧
    chatModel "Basic Technical Analysis" = "llama3" :=
  ⟨by decide, model_selection_llama3.2 "Basic Technical Analysis" (by decide)⟩

theorem rollingStd_getElem (sq : ℚ → ℚ) (w : ℕ) (xs : List ℚ) (i : ℕ)
    (hi : i < xs.length) :
    (rollingStd sq w xs)[i]? =
      some (if w ≤ i + 1 then
        some (sq (((((xs.take (i + 1)).drop (i + 1 - w)).map
            fun x =>
              (x - (((xs.take (i + 1)).drop (i + 1 - w)).sum / (w : ℚ))) ^ 2).sum)
          / ((w : ℚ) - 1)))
      else none) := by
  rw [rollingStd, List.getElem?_map, List.getElem?_range hi, Option.map_some']

/-- C5: the Bollinger overlay is `upper = SMA(20) + 2·std` and
`lower = SMA(20) − 2·std` over the same 20-point window, so wherever both
bands are defined `upper − lower = 2·k·std = 4·std` exactly, and both bands
are undefined at every index below `window − 1 = 19`. -/
theorem bollinger_band_width (sq : ℚ → ℚ) (xs : List ℚ) (i : ℕ)
    (hi : i < xs.length) :
    (19 ≤ i → ∃ u l s,
      (bollingerUpper sq xs)[i]? = some (some u) ∧
      (bollingerLower sq xs)[i]? = some (some l) ∧
      (rollingStd sq 20 xs)[i]? = some (some s) ∧
      u - l = 2 * 2 * s) ∧
    (i < 19 → (bollingerUpper sq xs)[i]? = some none ∧
      (bollingerLower sq xs)[i]? = some none) := by
  constructor
  · intro h19
    have h20 : 20 ≤ i + 1 := by omega
    obtain ⟨M, hm⟩ : ∃ m, (rollingMean 20 xs)[i]? = some (some m) := by
      rw [rollingMean_getElem 20 xs i hi, if_pos h20]; exact ⟨_, rfl⟩
    obtain ⟨S, hs⟩ : ∃ s, (rollingStd sq 20 xs)[i]? = some (some s) := by
      rw [rollingStd_getElem sq 20 xs i hi, if_pos h20]; exact ⟨_, rfl⟩
    refine ⟨M + 2 * S, M + (-2) * S, S, ?_, ?_, hs, by ring⟩
    · rw [bollingerUpper, seriesAffine, List.getElem?_zipWith, hm, hs]
    · rw [bollingerLower, seriesAffine, List.getElem?_zipWith, hm, hs]
  · intro h19
    have h20 : ¬ 20 ≤ i + 1 := by omega
    constructor
    · rw [bollingerUpper, seriesAffine, List.getElem?_zipWith,
        rollingMean_getElem 20 xs i hi, rollingStd_getElem sq 20 xs i hi,
        if_neg h20, if_neg h20]
    · rw [bollingerLower, seriesAffine, List.getElem?_zipWith,
        rollingMean_getElem 20 xs i hi, rollingStd_getElem sq 20 xs i hi,
        if_neg h20, if_neg h20]

/-- Witness for C5 on a constant 20-point series at index 19. -/
theorem bollinger_band_width_witness :
    (19 < (List.replicate 20 (5 : ℚ)).length ∧ 19 ≤ 19) ∧
    (∃ u l s,
      (bollingerUpper id (List.replicate 20 (5 : ℚ)))[19]? = some (some u) ∧
      (bollingerLower id (List.replicate 20 (5 : ℚ)))[19]? = some (some l) ∧
      (rollingStd id 20 (List.replicate 20 (5 : ℚ)))[19]? = some (some s) ∧
      u - l = 2 * 2 * s) :=
  ⟨⟨by simp, le_refl 19⟩,
    (bollinger_band_width id (List.replicate 20 (5 : ℚ)) 19 (by simp)).1
      (le_refl 19)⟩

/-- C4 counterexample: pandas `ewm(span=20).mean()` (default `adjust=True`)
does not satisfy the recursive smoothing recurrence
`y_i = α·x_i + (1-α)·y_(i-1)` seeded by the first close: they differ already
on the two-point series `[0, 1]` (21/40 versus 2/21 at index 1). -/
theorem ema_not_recursive_cex :
    ewmMean 20 [(0 : ℚ), 1] ≠ emaRecursiveSpec 20 [(0 : ℚ), 1] := by
  norm_num [ewmMean, ewmAux, emaRecursiveSpec, emaRecAux]

/-- C4 (amended): the EMA(span) overlay equals the adjusted (weight-normalised)
exponential weighted mean of the closes with `α = 2/(span+1)` — position `i`
is the weighted average of closes `[0..i]` with weight `(1-α)^j` on the close
`j` steps back — it has the same length as the series (defined from the first
observation onward), and its value at index 0 is the first close. -/
theorem ema_adjusted_weighted (span : ℕ) (xs : List ℚ) :
    ewmMean span xs = emaAdjustedSpec span xs ∧
    (ewmMean span xs).length = xs.length ∧
    (∀ x t, (ewmMean span (x :: t)).headI = x) := by
  refine ⟨?_, ?_, ?_⟩
  · apply List.ext_getElem?
    intro n
    by_cases hn : n < xs.length
    · rw [ewmMean, ewmAux_getElem _ _ _ _ _ hn]
      simp only [emaAdjustedSpec]
      rw [List.getElem?_map, List.getElem?_range hn, Option.map_some']
      simp
    · have h1 : (ewmMean span xs).length ≤ n := by
        rw [ewmMean, ewmAux_length]; omega
      have h2 : (emaAdjustedSpec span xs).length ≤ n := by
        simp [emaAdjustedSpec]; omega
      rw [List.getElem?_eq_none h1, List.getElem?_eq_none h2]
  · rw [ewmMean, ewmAux_length]
  · intro x t
    simp [ewmMean, ewmAux]

/-- C7 counterexample: a 3-point series is shorter than the requested span 20,
yet the 20-Day EMA overlay is not entirely undefined (pandas `ewm` is defined
from the first observation). -/
theorem short_series_ema_defined_cex :
    ([(1 : ℚ), 2, 3].length < 20) ∧
    ¬ allUndefined (emaOverlay 20 [(1 : ℚ), 2, 3]) := by
  constructor
  · norm_num
  · simp [allUndefined, emaOverlay, ewmMean, ewmAux]

/-- C7 (amended): for a non-empty series shorter than the requested window,
the window-based overlays (SMA and the rolling standard deviation feeding the
Bollinger bands) have the same length as the series with every value
undefined, and no exception is raised (the computation is total); the EMA
overlay also keeps the length but is defined at every position regardless of
the span. -/
theorem short_series_overlays (sq : ℚ → ℚ) (w span : ℕ) (xs : List ℚ)
    (hne : xs ≠ []) (hlt : xs.length < w) :
    ((rollingMean w xs).length = xs.length ∧ allUndefined (rollingMean w xs)) ∧
    ((rollingStd sq w xs).length = xs.length ∧
      allUndefined (rollingStd sq w xs)) ∧
    ((emaOverlay span xs).length = xs.length ∧
      allDefined (emaOverlay span xs)) := by
  refine ⟨⟨?_, ?_⟩, ⟨?_, ?_⟩, ⟨?_, ?_⟩⟩
  · simp [rollingMean]
  · intro o ho
    rw [rollingMean, List.mem_map] at ho
    obtain ⟨i, hir, rfl⟩ := ho
    rw [List.mem_range] at hir
    rw [if_neg (by omega)]
  · simp [rollingStd]
  · intro o ho
    rw [rollingStd, List.mem_map] at ho
    obtain ⟨i, hir, rfl⟩ := ho
    rw [List.mem_range] at hir
    rw [if_neg (by omega)]
  · simp [emaOverlay, ewmMean, ewmAux_length]
  · intro o ho
    rw [emaOverlay, List.mem_map] at ho
    obtain ⟨v, _, rfl⟩ := ho
    simp

/-- Witness for C7 (amended) on the 3-point series `[1, 2, 3]` with
window 200 and span 20. -/
theorem short_series_overlays_witness :
    ([(1 : ℚ), 2, 3] ≠ [] ∧ [(1 : ℚ), 2, 3].length < 200) ∧
    (((rollingMean 200 [(1 : ℚ), 2, 3]).length = [(1 : ℚ), 2, 3].length ∧
      allUndefined (rollingMean 200 [(1 : ℚ), 2, 3])) ∧
     ((rollingStd id 200 [(1 : ℚ), 2, 3]).length = [(1 : ℚ), 2, 3].length ∧
      allUndefined (rollingStd id 200 [(1 : ℚ), 2, 3])) ∧
     ((emaOverlay 20 [(1 : ℚ), 2, 3]).length = [(1 : ℚ), 2, 3].length ∧
      allDefined (emaOverlay 20 [(1 : ℚ), 2, 3]))) :=
  ⟨⟨by simp, by norm_num⟩,
    short_series_overlays id 200 20 [(1 : ℚ), 2, 3] (by simp) (by norm_num)⟩

theorem zip_replicate_mul_sum (v : ℚ) : ∀ (xs : List ℚ) (m : ℕ),
    (((xs.zip (List.replicate m v)).map fun p => p.1 * p.2).sum) =
      (xs.take m).sum * v := by
  intro xs
  induction xs with
  | nil => intro m; simp
  | cons x t ih =>
    intro m
    cases m with
    | zero => simp
    | succ k =>
      simp [List.replicate_succ, List.take_succ_cons, ih k, add_mul]

/-- C3 counterexample: the indicator catalog offered by the multiselect does
not include a VWAP indicator. -/
theorem vwap_absent_from_catalog : "VWAP" ∉ indicatorOptions := by decide

/-- C3 (amended): the indicator catalog does not include VWAP; a VWAP defined
as in the spec — cumulative sum of `close × volume` over cumulative volume —
satisfies the stated value property: for a series with constant non-zero
volume, VWAP at index `i` is the simple mean of the closes `[0..i]`. -/
theorem vwap_not_offered_const_volume (closes : List ℚ) (v : ℚ) (i : ℕ)
    (hv : v ≠ 0) (hi : i < closes.length) :
    "VWAP" ∉ indicatorOptions ∧
    (vwap closes (List.replicate closes.length v))[i]? =
      some (some ((closes.take (i + 1)).sum / ((i : ℚ) + 1))) := by
  refine ⟨by decide, ?_⟩
  rw [vwap, List.getElem?_map, List.getElem?_range hi, Option.map_some']
  have htakev : (List.replicate closes.length v).take (i + 1) =
      List.replicate (i + 1) v := by
    rw [List.take_replicate]
    congr 1
    omega
  have htv : ((List.replicate closes.length v).take (i + 1)).sum =
      ((i : ℚ) + 1) * v := by
    rw [htakev, List.sum_replicate, nsmul_eq_mul]
    push_cast
    ring
  have htc : (closes.take (i + 1)).take (i + 1) = closes.take (i + 1) := by
    simp [List.take_take]
  have hpv : (((closes.take (i + 1)).zip
      ((List.replicate closes.length v).take (i + 1))).map
      fun p => p.1 * p.2).sum = (closes.take (i + 1)).sum * v := by
    rw [htakev, zip_replicate_mul_sum v (closes.take (i + 1)) (i + 1), htc]
  have hne : ((i : ℚ) + 1) * v ≠ 0 := by
    apply mul_ne_zero _ hv
    positivity
  simp only [htv, hpv, if_neg hne]
  rw [mul_div_mul_right _ _ hv]

/-- Witness for C3 (amended) at closes `[2, 4]`, constant volume 1,
index 1: VWAP is the mean 3. -/
theorem vwap_not_offered_const_volume_witness :
    ((1 : ℚ) ≠ 0 ∧ 1 < [(2 : ℚ), 4].length) ∧
    ("VWAP" ∉ indicatorOptions ∧
      (vwap [(2 : ℚ), 4] (List.replicate [(2 : ℚ), 4].length 1))[1]? =
        some (some (([(2 : ℚ), 4].take (1 + 1)).sum / (((1 : ℕ) : ℚ) + 1)))) :=
  ⟨⟨one_ne_zero, by norm_num⟩,
    vwap_not_offered_const_volume [(2 : ℚ), 4] 1 1 one_ne_zero (by norm_num)⟩

/-- C9: two selections containing the same indicator names in different
orders produce the same figure — each handled indicator contributes via a
membership test only, so the overlay values do not depend on selection
order. -/
theorem overlay_order_independence (sq : ℚ → ℚ) (s1 s2 : List String)
    (opens highs lows closes : List ℚ) (h : s1.Perm s2) :
    buildFigure sq s1 opens highs lows closes =
      buildFigure sq s2 opens highs lows closes := by
  have hm : ∀ x : String, x ∈ s1 ↔ x ∈ s2 := fun x => h.mem_iff
  simp only [buildFigure, hm]

/-- Witness for C9: selecting SMA then EMA versus EMA then SMA. -/
theorem overlay_order_independence_witness :
    (["50-Day SMA", "20-Day EMA"] : List String).Perm
      ["20-Day EMA", "50-Day SMA"] ∧
    buildFigure id ["50-Day SMA", "20-Day EMA"] [1] [3] [0] [(2 : ℚ)] =
      buildFigure id ["20-Day EMA", "50-Day SMA"] [1] [3] [0] [(2 : ℚ)] :=
  ⟨by decide,
    overlay_order_independence id ["50-Day SMA", "20-Day EMA"]
      ["20-Day EMA", "50-Day SMA"] [1] [3] [0] [(2 : ℚ)] (by decide)⟩

/-- C10: RSI and MACD have no handler in the chain, so the traces depend only
on the intersection of the selection with the four handled names, and a
selection of RSI and MACD alone yields the bare candlestick figure. -/
theorem rsi_macd_no_traces (sq : ℚ → ℚ) (sel : List String)
    (opens highs lows closes : List ℚ) :
    buildFigure sq sel opens highs lows closes =
      buildFigure sq (sel.filter fun x => decide (x ∈ handledIndicators))
        opens highs lows closes ∧
    buildFigure sq ["RSI", "MACD"] opens highs lows closes =
      [Trace.candlestick opens highs lows closes] := by
  constructor
  · simp [buildFigure, List.mem_filter, handledIndicators]
  · simp [buildFigure]

end StockDashboard
